import Mathlib

set_option maxHeartbeats 1000000

/-!
Verification of the safe state-mutation engine in `cursor_id_modifier.py`.

The Python source is shallowly embedded: JSON documents become an inductive
`JVal` (Python dicts are insertion-ordered association lists, matching how
`json.loads` builds them), fallible I/O collaborators (file system, registry,
process table, JSON serializer) become explicit environment records of boolean
outcomes and observation streams, and `random.choice` / `random.choices` /
`os.urandom` become index streams supplied as parameters.
-/

/-- JSON values as produced by `json.loads`.  Objects keep insertion order,
as Python dicts do; numbers are restricted to integers, which is all the
claims need. -/
inductive JVal where
  | jnull : JVal
  | jbool : Bool → JVal
  | jnum : Int → JVal
  | jstr : String → JVal
  | jarr : List JVal → JVal
  | jobj : List (String × JVal) → JVal

/-- Python dict lookup `d[k]` on the association list (first binding wins). -/
def getKey : List (String × JVal) → String → Option JVal
  | [], _ => none
  | (k', v) :: rest, k => if k' = k then some v else getKey rest k

/-- Python dict assignment `d[k] = v`: replace the binding in place if the key
is present, otherwise append a new binding at the end. -/
def setKey : List (String × JVal) → String → JVal → List (String × JVal)
  | [], k, v => [(k, v)]
  | (k', v') :: rest, k, v =>
      if k' = k then (k, v) :: rest else (k', v') :: setKey rest k v

theorem getKey_setKey_self (l : List (String × JVal)) (k : String) (v : JVal) :
    getKey (setKey l k v) k = some v := by
  induction l with
  | nil => simp [setKey, getKey]
  | cons hd t ih =>
    obtain ⟨k', v'⟩ := hd
    by_cases hk : k' = k
    · simp [setKey, hk, getKey]
    · simp [setKey, hk, getKey, ih]

theorem getKey_setKey_ne (l : List (String × JVal)) (k k' : String) (v : JVal)
    (hne : k' ≠ k) : getKey (setKey l k v) k' = getKey l k' := by
  have hkk : ¬ (k = k') := fun h => hne h.symm
  induction l with
  | nil => simp [setKey, getKey, hkk]
  | cons hd t ih =>
    obtain ⟨k0, v0⟩ := hd
    by_cases hk : k0 = k
    · subst hk
      simp [setKey, getKey, hkk]
    · simp [setKey, getKey, hk, ih]

theorem setKey_setKey (l : List (String × JVal)) (k : String) (v w : JVal) :
    setKey (setKey l k v) k w = setKey l k w := by
  induction l with
  | nil => simp [setKey]
  | cons hd t ih =>
    obtain ⟨k0, v0⟩ := hd
    by_cases hk : k0 = k
    · simp [setKey, hk]
    · simp [setKey, hk, ih]

theorem any_key_eq_getKey_isSome (l : List (String × JVal)) (k : String) :
    (l.any fun kv => kv.1 == k) = (getKey l k).isSome := by
  induction l with
  | nil => simp [getKey]
  | cons hd t ih =>
    obtain ⟨k0, v0⟩ := hd
    by_cases hk : k0 = k
    · simp [getKey, hk]
    · simp [getKey, hk, ih]

/-- Substring test, modelling Python's `needle in haystack` on strings. -/
def strContains (hay needle : String) : Bool :=
  decide (needle.toList <:+: hay.toList)

/-- Python's `key in config` on an arbitrary JSON value (line 276 of the
source evaluates `'telemetry' not in config`).  `none` models a raised
`TypeError`: membership on numbers, booleans and `None` is not defined. -/
def pyIn (key : String) : JVal → Option Bool
  | .jobj kvs => some (kvs.any fun kv => kv.1 == key)
  | .jarr xs => some (xs.any fun x => match x with | .jstr s => s == key | _ => false)
  | .jstr s => some (strContains s key)
  | _ => none

/-- Python's `config['telemetry']` with a string key.  `none` models a raised
exception (`TypeError` for lists/strings, `KeyError` for a missing key). -/
def pySubscript (v : JVal) (key : String) : Option JVal :=
  match v with
  | .jobj kvs => getKey kvs key
  | _ => none

def isJObj : JVal → Bool
  | .jobj _ => true
  | _ => false

/-- The condition of line 276:
`'telemetry' not in config or not isinstance(config['telemetry'], dict)`,
with Python's short-circuit evaluation.  `none` models an uncaught raise. -/
def telemetryNeedsHeal (config : JVal) : Option Bool :=
  match pyIn "telemetry" config with
  | none => none
  | some false => some true
  | some true =>
    match pySubscript config "telemetry" with
    | none => none
    | some v => some (!isJObj v)

/-- Outcome of the document-level part of `update_storage_file`
(lines 276-287): the structural fix-up of `telemetry` followed by the four
field assignments. -/
inductive DocResult where
  | ok : JVal → DocResult
  | refuse : DocResult
  | raise : DocResult

/-- The four assignments of lines 284-287, in source order. -/
def setIds (t : List (String × JVal)) (m mac dev sqm : String) :
    List (String × JVal) :=
  setKey (setKey (setKey (setKey t "machineId" (.jstr m))
    "macMachineId" (.jstr mac)) "devDeviceId" (.jstr dev)) "sqmId" (.jstr sqm)

/-- Lines 276-287 of `update_storage_file`: ensure `telemetry` exists as an
object (replacing it by `{}` when the root is a dict, refusing when the root
is not a dict), then set the four identity fields.  The branches marked
unreachable cannot occur: when no heal is needed the root is an object whose
`telemetry` key holds an object. -/
def applyTelemetryUpdate (config : JVal) (m mac dev sqm : String) : DocResult :=
  match telemetryNeedsHeal config with
  | none => .raise
  | some needs =>
    let config1 : Option JVal :=
      if needs then
        match config with
        | .jobj kvs => some (.jobj (setKey kvs "telemetry" (.jobj [])))
        | _ => none
      else some config
    match config1 with
    | none => .refuse
    | some (.jobj kvs) =>
      match getKey kvs "telemetry" with
      | some (.jobj t) => .ok (.jobj (setKey kvs "telemetry" (.jobj (setIds t m mac dev sqm))))
      | _ => .raise    -- unreachable
    | some _ => .raise -- unreachable

/-- The pre-update `telemetry` object of a root object: the object bound to
`"telemetry"` when there is one, `[]` when the key is absent or wrongly
typed (the self-heal replaces it by `{}`). -/
def telemetryBase (kvs : List (String × JVal)) : List (String × JVal) :=
  match getKey kvs "telemetry" with
  | some (.jobj t) => t
  | _ => []

theorem applyTelemetryUpdate_jobj (kvs : List (String × JVal))
    (m mac dev sqm : String) :
    applyTelemetryUpdate (.jobj kvs) m mac dev sqm =
      .ok (.jobj (setKey kvs "telemetry"
        (.jobj (setIds (telemetryBase kvs) m mac dev sqm)))) := by
  cases hg : getKey kvs "telemetry" with
  | none =>
    have hany : (kvs.any fun kv => kv.1 == "telemetry") = false := by
      rw [any_key_eq_getKey_isSome, hg]; rfl
    simp [applyTelemetryUpdate, telemetryNeedsHeal, pyIn, hany, telemetryBase, hg,
      getKey_setKey_self, setKey_setKey]
  | some w =>
    have hany : (kvs.any fun kv => kv.1 == "telemetry") = true := by
      rw [any_key_eq_getKey_isSome, hg]; rfl
    cases w with
    | jobj t =>
      simp [applyTelemetryUpdate, telemetryNeedsHeal, pyIn, hany, pySubscript, hg,
        isJObj, telemetryBase]
    | jnull =>
      simp [applyTelemetryUpdate, telemetryNeedsHeal, pyIn, hany, pySubscript, hg,
        isJObj, telemetryBase, getKey_setKey_self, setKey_setKey]
    | jbool b =>
      simp [applyTelemetryUpdate, telemetryNeedsHeal, pyIn, hany, pySubscript, hg,
        isJObj, telemetryBase, getKey_setKey_self, setKey_setKey]
    | jnum n =>
      simp [applyTelemetryUpdate, telemetryNeedsHeal, pyIn, hany, pySubscript, hg,
        isJObj, telemetryBase, getKey_setKey_self, setKey_setKey]
    | jstr s =>
      simp [applyTelemetryUpdate, telemetryNeedsHeal, pyIn, hany, pySubscript, hg,
        isJObj, telemetryBase, getKey_setKey_self, setKey_setKey]
    | jarr xs =>
      simp [applyTelemetryUpdate, telemetryNeedsHeal, pyIn, hany, pySubscript, hg,
        isJObj, telemetryBase, getKey_setKey_self, setKey_setKey]

/-- The file-system collaborators of `update_storage_file`: whether the text
read succeeds, the JSON parser/serializer, whether the overwrite of line
291-292 succeeds, whether the recovery write of line 299-300 succeeds, and
the unknown content a failed recovery leaves behind. -/
structure FileEnv where
  readOk : Bool
  parse : String → Option JVal
  dumps : JVal → String
  writeOk : Bool
  recoverOk : Bool
  recoverFailContent : String

/-- Observable outcome of `update_storage_file`: the returned boolean, whether
an exception escaped the function, the on-disk content afterwards, and whether
the severe both-writes-failed message of line 302 was printed. -/
structure UpdResult where
  ok : Bool
  raised : Bool
  disk : Option String
  severeLogged : Bool

/-- `update_storage_file` (lines 255-303).  `disk0` is the on-disk content of
the config file (`none` = the file does not exist). -/
def update_storage_file (env : FileEnv) (disk0 : Option String)
    (m mac dev sqm : String) : UpdResult :=
  match disk0 with
  | none => ⟨false, false, none, false⟩
  | some original =>
    if !env.readOk then ⟨false, false, some original, false⟩
    else match env.parse original with
    | none => ⟨false, false, some original, false⟩
    | some config =>
      match applyTelemetryUpdate config m mac dev sqm with
      | .refuse => ⟨false, false, some original, false⟩
      | .raise => ⟨false, true, some original, false⟩
      | .ok updated =>
        if env.writeOk then ⟨true, false, some (env.dumps updated), false⟩
        else if env.recoverOk then ⟨false, false, some original, false⟩
        else ⟨false, false, some env.recoverFailContent, true⟩

/-- Python's `random.choice(s)` on a string, with the random draw supplied as
an index `n`: uniform choice is modelled by quantifying over all indices. -/
def pychoice (s : String) (n : Nat) : Char :=
  s.toList.getD (n % s.toList.length) ' '

/-- `string.ascii_lowercase + string.digits`, the population of
`get_random_hex` (line 87). -/
def lowercaseAlphanum : String := "abcdefghijklmnopqrstuvwxyz0123456789"

/-- `get_random_hex(length)` (lines 85-87):
`''.join(random.choices(string.ascii_lowercase + string.digits, k=length))`,
with the `length` independent draws supplied as the stream `c`. -/
def get_random_hex (c : Nat → Nat) (length : Nat) : String :=
  ⟨(List.range length).map fun i => pychoice lowercaseAlphanum (c i)⟩

/-- The bytes of the literal `b"auth0|user_"` (line 397). -/
def authPrefixBytes : List Nat := "auth0|user_".toList.map Char.toNat

/-- One lowercase hex digit. -/
def hexDigitChar (n : Nat) : Char := "0123456789abcdef".toList.getD (n % 16) '0'

/-- `f"{b:02x}"` for a byte `b < 256`: two lowercase hex digits. -/
def byteHexChars (b : Nat) : List Char := [hexDigitChar (b / 16), hexDigitChar b]

/-- `''.join(f"{b:02x}" for b in b"auth0|user_")` (line 397). -/
def prefix_hex : String := ⟨(authPrefixBytes.map byteHexChars).flatten⟩

/-- `machine_id = f"{prefix_hex}{random_part}"` (lines 397-399). -/
def machine_id (c : Nat → Nat) : String := prefix_hex ++ get_random_hex c 32

/-- `new_standard_machine_id` (lines 89-102): walk the template, copying `-`
and `4` literally, drawing a hex digit at `x` and one of `89ab` at `y`.  The
counter `k` records how many random draws have been consumed so far. -/
def buildId (c : Nat → Nat) : List Char → Nat → List Char
  | [], _ => []
  | ch :: rest, k =>
    if ch = '-' ∨ ch = '4' then ch :: buildId c rest k
    else if ch = 'x' then pychoice "0123456789abcdef" (c k) :: buildId c rest (k + 1)
    else if ch = 'y' then pychoice "89ab" (c k) :: buildId c rest (k + 1)
    else buildId c rest k

def id_template : String := "xxxxxxxx-xxxx-4xxx-yxxx-xxxxxxxxxxxx"

def new_standard_machine_id (c : Nat → Nat) : String :=
  ⟨buildId c id_template.toList 0⟩

/-- `uuid.uuid4()` builds a UUID from 16 random bytes, forcing the version
nibble of byte 6 to `4` and the two top bits of byte 8 to `10`. -/
def setVersion4 (i : Nat) (b : Nat) : Nat :=
  if i = 6 then 0x40 + b % 16
  else if i = 8 then 0x80 + b % 64
  else b % 256

def uuid4_bytes (bs : List Nat) : List Nat :=
  (List.range 16).map fun i => setVersion4 i (bs.getD i 0)

/-- `uuid.uuid4().hex`: 32 lowercase hex characters, no separators. -/
def uuid4_hex (bs : List Nat) : String :=
  ⟨((uuid4_bytes bs).map byteHexChars).flatten⟩

/-- `str(uuid.uuid4())`: the hyphenated 8-4-4-4-12 rendering (line 396). -/
def uuid4_str (bs : List Nat) : String :=
  let h := ((uuid4_bytes bs).map byteHexChars).flatten
  ⟨h.take 8⟩ ++ "-" ++ ⟨(h.drop 8).take 4⟩ ++ "-" ++ ⟨(h.drop 12).take 4⟩
    ++ "-" ++ ⟨(h.drop 16).take 4⟩ ++ "-" ++ ⟨h.drop 20⟩

/-- Python `str.upper()` on ASCII text: character-wise uppercasing. -/
def pyUpper (s : String) : String := ⟨s.toList.map Char.toUpper⟩

/-- `sqm_id = f"{{{uuid.uuid4().hex.upper()}}}"` (line 400). -/
def sqm_id (bs : List Nat) : String :=
  "\x7b" ++ pyUpper (uuid4_hex bs) ++ "\x7d"

/-- The registry/OS collaborators of `update_machine_guid` (lines 170-253):
whether `winreg` imports, whether opening the key read/write succeeds, the
result of reading the current value (`none` = the read raised, leaving
`original_guid` empty), whether `reg.exe export` produced the backup file,
whether `SetValueEx` succeeds, whether the verification read raises and the
value it returns, and whether `reg.exe import` succeeds. -/
structure RegEnv where
  winregAvailable : Bool
  openOk : Bool
  queryResult : Option String
  mkdirOk : Bool
  exportOk : Bool
  newGuid : String
  writeOk : Bool
  verifyRaises : Bool
  verifyValue : String
  restoreOk : Bool

/-- Observable outcome of `update_machine_guid`: the returned boolean, whether
the restore-by-import of line 244-246 was attempted, whether the
manual-recovery message of line 249 was printed, whether the backup `.reg`
file was produced, and whether the registry value was actually written. -/
structure RegResult where
  ret : Bool
  restoreAttempted : Bool
  manualRecoveryLogged : Bool
  backupProduced : Bool
  wroteValue : Bool

/-- `update_machine_guid` (lines 170-253).  The restore of line 242 runs only
when `original_guid` is non-empty (Python truthiness) and the backup file
exists on disk, i.e. the export produced it. -/
def update_machine_guid (win32 : Bool) (env : RegEnv) : RegResult :=
  if !win32 then ⟨false, false, false, false, false⟩
  else if !env.winregAvailable then ⟨false, false, false, false, false⟩
  else if !env.openOk then ⟨false, false, false, false, false⟩
  else
    let originalGuid := env.queryResult.getD ""
    let backupProduced := env.exportOk
    if env.writeOk && !env.verifyRaises then
      if env.verifyValue == env.newGuid then ⟨true, false, false, backupProduced, true⟩
      else ⟨false, false, false, backupProduced, true⟩
    else
      let attempt := (originalGuid != "") && backupProduced
      ⟨false, attempt, attempt && !env.restoreOk, backupProduced, env.writeOk⟩

def MAX_RETRIES : Nat := 5

/-- Python `str.lower()` on ASCII process names: character-wise lowering. -/
def pyLower (s : String) : String := ⟨s.toList.map Char.toLower⟩

/-- Case-insensitive name match over one process-table enumeration
(lines 124-129 and 146-151). -/
def matchProcs (name : String) (tbl : List String) : List String :=
  tbl.filter fun p => pyLower p == pyLower name

/-- The retry loop of lines 143-166: up to `fuel` further enumerations, one
per second; returns the next observation index after success, `none` when the
budget is exhausted with a match still running (`press_enter_to_exit(1)`). -/
def quiescePoll (pt : Nat → List String) (name : String) : Nat → Nat → Option Nat
  | 0, _ => none
  | fuel + 1, t =>
    if (matchProcs name (pt t)).isEmpty then some (t + 1)
    else quiescePoll pt name fuel (t + 1)

/-- `close_cursor_process` (lines 121-168).  `pt` is the stream of process
table enumerations, `t` the index of the next enumeration; `some t'` means the
function returned normally with `t'` enumerations consumed, `none` means it
exited the program with code 1 after `MAX_RETRIES` failed polls. -/
def close_cursor_process (pt : Nat → List String) (name : String) (t : Nat) :
    Option Nat :=
  if (matchProcs name (pt t)).isEmpty then some (t + 1)
  else quiescePoll pt name MAX_RETRIES (t + 1)

theorem quiescePoll_some (pt : Nat → List String) (name : String)
    (fuel t t' : Nat) (h : quiescePoll pt name fuel t = some t') :
    0 < t' ∧ matchProcs name (pt (t' - 1)) = [] := by
  induction fuel generalizing t with
  | zero => simp [quiescePoll] at h
  | succ n ih =>
    by_cases he : (matchProcs name (pt t)).isEmpty
    · rw [quiescePoll, if_pos he] at h
      obtain rfl : t + 1 = t' := by exact Option.some.inj h
      exact ⟨Nat.succ_pos t, by simpa [List.isEmpty_iff] using he⟩
    · rw [quiescePoll, if_neg he] at h
      exact ih (t + 1) h

theorem close_cursor_process_some (pt : Nat → List String) (name : String)
    (t t' : Nat) (h : close_cursor_process pt name t = some t') :
    0 < t' ∧ matchProcs name (pt (t' - 1)) = [] := by
  by_cases he : (matchProcs name (pt t)).isEmpty
  · rw [close_cursor_process, if_pos he] at h
    obtain rfl : t + 1 = t' := by exact Option.some.inj h
    exact ⟨Nat.succ_pos t, by simpa [List.isEmpty_iff] using he⟩
  · rw [close_cursor_process, if_neg he] at h
    exact quiescePoll_some pt name MAX_RETRIES (t + 1) t' h

/-- The environment of one run of `main` (lines 305-464): the privilege
check, the stream of process-table enumerations, the backup-directory and
copy collaborators, the platform, the registry and file collaborators, the
on-disk config content (`none` = the file does not exist), and the random
draws feeding the four identifier generators. -/
structure Env where
  isAdmin : Bool
  procTable : Nat → List String
  backupDirExists : Bool
  mkdirOk : Bool
  copyOk : Bool
  isWin32 : Bool
  regEnv : RegEnv
  fileEnv : FileEnv
  disk : Option String
  hexChoices : Nat → Nat
  machChoices : Nat → Nat
  devBytes : List Nat
  sqmBytes : List Nat

/-- Observable outcome of one run of `main`: the exit code, whether
`update_machine_guid` was invoked, whether `update_storage_file` was invoked,
the value of the local `machine_guid_updated`, whether the config backup copy
of line 385 failed, whether the success report of lines 421-428 was printed,
the four identifiers it displayed, and the on-disk config content after. -/
structure MainResult where
  exitCode : Nat
  regInvoked : Bool
  cfgInvoked : Bool
  machineGuidUpdated : Bool
  backupCopyFailed : Bool
  configReported : Bool
  reportedIds : Option (String × String × String × String)
  diskAfter : Option String

/-- A fatal abort before any mutation (`press_enter_to_exit(1)`). -/
def exitRec (env : Env) : MainResult :=
  ⟨1, false, false, false, false, false, none, env.disk⟩

/-- Lines 358-464 of `main`: everything after both `close_cursor_process`
calls returned.  The two `Path` objects of lines 359-368 are always truthy,
so those abort branches are dead code and do not appear.  A failed backup
copy (line 388) only logs; the run continues.  `machine_guid_updated` is
assigned at lines 404-406 and never read again. -/
def mainTail (env : Env) : MainResult :=
  if !env.backupDirExists && !env.mkdirOk then exitRec env
  else
    let copyFailed := env.disk.isSome && !env.copyOk
    let mac_machine_id := new_standard_machine_id env.machChoices
    let uuid_str := uuid4_str env.devBytes
    let machineId := machine_id env.hexChoices
    let sqm := sqm_id env.sqmBytes
    let machineGuidUpdated :=
      if env.isWin32 then (update_machine_guid true env.regEnv).ret else false
    let r := update_storage_file env.fileEnv env.disk machineId mac_machine_id uuid_str sqm
    { exitCode := if r.ok then 0 else 1
      regInvoked := env.isWin32
      cfgInvoked := true
      machineGuidUpdated := machineGuidUpdated
      backupCopyFailed := copyFailed
      configReported := r.ok
      reportedIds := if r.ok then some (machineId, mac_machine_id, uuid_str, sqm) else none
      diskAfter := r.disk }

/-- `main` (lines 305-464): privilege check, quiesce `"Cursor"` then
`"cursor"`, then the backup / generate / mutate / report tail. -/
def mainModel (env : Env) : MainResult :=
  if !env.isAdmin then exitRec env
  else
    match close_cursor_process env.procTable "Cursor" 0 with
    | none => exitRec env
    | some t1 =>
      match close_cursor_process env.procTable "cursor" t1 with
      | none => exitRec env
      | some _ => mainTail env

/-- C3: for every config file whose content parses as JSON, if writing the
updated document fails, `update_storage_file` writes the original unmodified
text back to the same path (so on successful recovery the on-disk content
equals the original byte-for-byte), reports a distinct severe condition
exactly when that recovery write also fails, and returns failure without
raising. -/
theorem c3_write_failure_rollback (env : FileEnv) (original : String)
    (config updated : JVal) (m mac dev sqm : String)
    (hread : env.readOk = true)
    (hparse : env.parse original = some config)
    (hdoc : applyTelemetryUpdate config m mac dev sqm = .ok updated)
    (hwrite : env.writeOk = false) :
    (update_storage_file env (some original) m mac dev sqm).ok = false ∧
    (update_storage_file env (some original) m mac dev sqm).raised = false ∧
    (env.recoverOk = true →
      (update_storage_file env (some original) m mac dev sqm).disk = some original) ∧
    ((update_storage_file env (some original) m mac dev sqm).severeLogged = true ↔
      env.recoverOk = false) := by
  cases hrec : env.recoverOk <;>
    simp [update_storage_file, hread, hparse, hdoc, hwrite, hrec]

/-- A concrete file environment whose overwrite fails but whose recovery
write succeeds. -/
def fenvC3 : FileEnv :=
  ⟨true, (fun _ => some (.jobj [])), (fun _ => "out"), false, true, "bad"⟩

theorem c3_witness :
    (update_storage_file fenvC3 (some "orig") "m" "a" "d" "s").ok = false ∧
    (update_storage_file fenvC3 (some "orig") "m" "a" "d" "s").raised = false ∧
    (fenvC3.recoverOk = true →
      (update_storage_file fenvC3 (some "orig") "m" "a" "d" "s").disk = some "orig") ∧
    ((update_storage_file fenvC3 (some "orig") "m" "a" "d" "s").severeLogged = true ↔
      fenvC3.recoverOk = false) :=
  c3_write_failure_rollback fenvC3 "orig" (.jobj [])
    (.jobj [("telemetry", .jobj [("machineId", .jstr "m"), ("macMachineId", .jstr "a"),
      ("devDeviceId", .jstr "d"), ("sqmId", .jstr "s")])])
    "m" "a" "d" "s" rfl rfl rfl rfl

/-- C4: for every config file whose root parses to a JSON object, after
`update_storage_file` succeeds the written document's `telemetry` object
holds the four supplied identifiers, every pre-existing top-level key other
than `telemetry` keeps its value, every pre-existing key inside `telemetry`
other than the four target fields keeps its value, and when `telemetry` was
missing or not an object it is replaced by an object holding exactly the
four target fields. -/
theorem c4_update_preserves_frame (env : FileEnv) (original : String)
    (kvs : List (String × JVal)) (m mac dev sqm : String)
    (hread : env.readOk = true)
    (hparse : env.parse original = some (.jobj kvs))
    (hwrite : env.writeOk = true) :
    ∃ t1,
      (update_storage_file env (some original) m mac dev sqm).ok = true ∧
      (update_storage_file env (some original) m mac dev sqm).disk =
        some (env.dumps (.jobj (setKey kvs "telemetry" (.jobj t1)))) ∧
      getKey (setKey kvs "telemetry" (.jobj t1)) "telemetry" = some (.jobj t1) ∧
      getKey t1 "machineId" = some (.jstr m) ∧
      getKey t1 "macMachineId" = some (.jstr mac) ∧
      getKey t1 "devDeviceId" = some (.jstr dev) ∧
      getKey t1 "sqmId" = some (.jstr sqm) ∧
      (∀ k, k ≠ "telemetry" →
        getKey (setKey kvs "telemetry" (.jobj t1)) k = getKey kvs k) ∧
      (∀ k, k ≠ "machineId" → k ≠ "macMachineId" → k ≠ "devDeviceId" → k ≠ "sqmId" →
        ∀ t0, getKey kvs "telemetry" = some (.jobj t0) → getKey t1 k = getKey t0 k) ∧
      ((∀ t0, getKey kvs "telemetry" ≠ some (.jobj t0)) →
        t1 = [("machineId", .jstr m), ("macMachineId", .jstr mac),
              ("devDeviceId", .jstr dev), ("sqmId", .jstr sqm)]) := by
  refine ⟨setIds (telemetryBase kvs) m mac dev sqm, ?_, ?_, ?_, ?_, ?_, ?_, ?_, ?_, ?_, ?_⟩
  · simp [update_storage_file, hread, hparse, applyTelemetryUpdate_jobj, hwrite]
  · simp [update_storage_file, hread, hparse, applyTelemetryUpdate_jobj, hwrite]
  · exact getKey_setKey_self kvs "telemetry" _
  · rw [setIds, getKey_setKey_ne _ _ _ _ (by decide),
      getKey_setKey_ne _ _ _ _ (by decide), getKey_setKey_ne _ _ _ _ (by decide),
      getKey_setKey_self]
  · rw [setIds, getKey_setKey_ne _ _ _ _ (by decide),
      getKey_setKey_ne _ _ _ _ (by decide), getKey_setKey_self]
  · rw [setIds, getKey_setKey_ne _ _ _ _ (by decide), getKey_setKey_self]
  · rw [setIds, getKey_setKey_self]
  · intro k hk
    exact getKey_setKey_ne _ _ _ _ hk
  · intro k h1 h2 h3 h4 t0 hg
    rw [setIds, getKey_setKey_ne _ _ _ _ h4, getKey_setKey_ne _ _ _ _ h3,
      getKey_setKey_ne _ _ _ _ h2, getKey_setKey_ne _ _ _ _ h1]
    simp [telemetryBase, hg]
  · intro h
    have hb : telemetryBase kvs = [] := by
      unfold telemetryBase
      cases hg : getKey kvs "telemetry" with
      | none => rfl
      | some w =>
        cases w with
        | jobj t0 => exact absurd hg (h t0)
        | jnull => rfl
        | jbool b => rfl
        | jnum n => rfl
        | jstr s => rfl
        | jarr xs => rfl
    rw [hb]
    rfl

/-- A concrete file environment whose read, parse and write all succeed, over
a root object carrying an unrelated top-level key. -/
def fenvC4 : FileEnv :=
  ⟨true, (fun _ => some (.jobj [("other", .jnum 1)])), (fun _ => "newdoc"), true, true, ""⟩

theorem c4_witness :
    ∃ t1,
      (update_storage_file fenvC4 (some "orig") "m" "a" "d" "s").ok = true ∧
      (update_storage_file fenvC4 (some "orig") "m" "a" "d" "s").disk =
        some (fenvC4.dumps (.jobj (setKey [("other", .jnum 1)] "telemetry" (.jobj t1)))) ∧
      getKey (setKey [("other", .jnum 1)] "telemetry" (.jobj t1)) "telemetry" = some (.jobj t1) ∧
      getKey t1 "machineId" = some (.jstr "m") ∧
      getKey t1 "macMachineId" = some (.jstr "a") ∧
      getKey t1 "devDeviceId" = some (.jstr "d") ∧
      getKey t1 "sqmId" = some (.jstr "s") ∧
      (∀ k, k ≠ "telemetry" →
        getKey (setKey [("other", .jnum 1)] "telemetry" (.jobj t1)) k =
          getKey [("other", .jnum 1)] k) ∧
      (∀ k, k ≠ "machineId" → k ≠ "macMachineId" → k ≠ "devDeviceId" → k ≠ "sqmId" →
        ∀ t0, getKey [("other", .jnum 1)] "telemetry" = some (.jobj t0) →
          getKey t1 k = getKey t0 k) ∧
      ((∀ t0, getKey [("other", .jnum 1)] "telemetry" ≠ some (.jobj t0)) →
        t1 = [("machineId", .jstr "m"), ("macMachineId", .jstr "a"),
              ("devDeviceId", .jstr "d"), ("sqmId", .jstr "s")]) :=
  c4_update_preserves_frame fenvC4 "orig" [("other", .jnum 1)] "m" "a" "d" "s" rfl rfl rfl

/-- A concrete file environment for a config file whose content is the JSON
scalar `null`. -/
def fenvC5 : FileEnv :=
  ⟨true, (fun _ => some .jnull), (fun _ => ""), true, true, ""⟩

/-- C5 (failing evaluation): on a config file whose content parses to the
JSON scalar `null`, `update_storage_file` raises an uncaught `TypeError`
(the membership test `'telemetry' not in config` is undefined on `None`)
instead of returning failure; no write is performed before the raise. -/
theorem c5_scalar_root_raises :
    (update_storage_file fenvC5 (some "null") "m" "a" "d" "s").raised = true ∧
    (update_storage_file fenvC5 (some "null") "m" "a" "d" "s").ok = false ∧
    (update_storage_file fenvC5 (some "null") "m" "a" "d" "s").disk = some "null" :=
  ⟨rfl, rfl, rfl⟩

/-- A registry environment in which open, read, backup, write and
verification all succeed. -/
def regEnvA : RegEnv :=
  ⟨true, true, some "old", true, true, "G", true, false, "G", true⟩

/-- Like `regEnvA`, but the verification read returns a different value, so
`update_machine_guid` returns `false`. -/
def regEnvB : RegEnv :=
  ⟨true, true, some "old", true, true, "G", true, false, "H", true⟩

/-- A file environment whose read, parse and write all succeed. -/
def fenvOk : FileEnv :=
  ⟨true, (fun _ => some (.jobj [])), (fun _ => "newdoc"), true, true, ""⟩

/-- A run in which the config file exists but the backup copy fails, no
target process is running, and everything else succeeds (non-Windows, so the
registry step is skipped). -/
def envC1 : Env :=
  { isAdmin := true
    procTable := fun _ => []
    backupDirExists := true
    mkdirOk := true
    copyOk := false
    isWin32 := false
    regEnv := regEnvA
    fileEnv := fenvOk
    disk := some "old"
    hexChoices := fun _ => 0
    machChoices := fun _ => 0
    devBytes := []
    sqmBytes := [] }

/-- Like `envC1`, but the backup directory is missing and cannot be
created. -/
def envC1dir : Env :=
  { isAdmin := true
    procTable := fun _ => []
    backupDirExists := false
    mkdirOk := false
    copyOk := true
    isWin32 := false
    regEnv := regEnvA
    fileEnv := fenvOk
    disk := some "old"
    hexChoices := fun _ => 0
    machChoices := fun _ => 0
    devBytes := []
    sqmBytes := [] }

/-- C1 is false on the code: in a run where the config file exists and its
backup copy fails, `main` still invokes the config mutation and finishes with
exit code 0 — the copy failure of line 388 is only logged, not fatal. -/
theorem c1_counterexample :
    (mainModel envC1).backupCopyFailed = true ∧
    (mainModel envC1).cfgInvoked = true ∧
    (mainModel envC1).exitCode = 0 :=
  ⟨rfl, rfl, rfl⟩

/-- C1 (amended): a failed backup copy of an existing config file is reported
but not fatal — the run continues into the registry and config mutations;
only failure to create the backup directory aborts the run with exit code 1
before any mutation. -/
theorem c1_backup_copy_failure_not_fatal :
    (∀ (env : Env) (t1 t2 : Nat),
      env.isAdmin = true →
      close_cursor_process env.procTable "Cursor" 0 = some t1 →
      close_cursor_process env.procTable "cursor" t1 = some t2 →
      (env.backupDirExists = true ∨ env.mkdirOk = true) →
      env.disk.isSome = true →
      env.copyOk = false →
      (mainModel env).backupCopyFailed = true ∧
      (mainModel env).cfgInvoked = true ∧
      (mainModel env).regInvoked = env.isWin32) ∧
    (∀ env : Env,
      env.backupDirExists = false →
      env.mkdirOk = false →
      (mainModel env).exitCode = 1 ∧
      (mainModel env).cfgInvoked = false ∧
      (mainModel env).regInvoked = false) := by
  constructor
  · intro env t1 t2 ha hc1 hc2 hdir hdisk hcopy
    have hm : mainModel env = mainTail env := by
      simp [mainModel, ha, hc1, hc2]
    have hcond : (!env.backupDirExists && !env.mkdirOk) = false := by
      rcases hdir with h | h <;> simp [h]
    rw [hm]
    simp [mainTail, hcond, hdisk, hcopy]
  · intro env hdir hmk
    by_cases ha : env.isAdmin
    · cases hc1 : close_cursor_process env.procTable "Cursor" 0 with
      | none => simp [mainModel, ha, hc1, exitRec]
      | some t1 =>
        cases hc2 : close_cursor_process env.procTable "cursor" t1 with
        | none => simp [mainModel, ha, hc1, hc2, exitRec]
        | some t2 => simp [mainModel, mainTail, ha, hc1, hc2, hdir, hmk, exitRec]
    · simp [mainModel, ha, exitRec]

theorem c1_witness :
    ((mainModel envC1).backupCopyFailed = true ∧
      (mainModel envC1).cfgInvoked = true ∧
      (mainModel envC1).regInvoked = envC1.isWin32) ∧
    ((mainModel envC1dir).exitCode = 1 ∧
      (mainModel envC1dir).cfgInvoked = false ∧
      (mainModel envC1dir).regInvoked = false) :=
  ⟨c1_backup_copy_failure_not_fatal.1 envC1 1 2 rfl rfl rfl (Or.inl rfl) rfl rfl,
   c1_backup_copy_failure_not_fatal.2 envC1dir rfl rfl⟩


/-- C2: the registry mutation and the config mutation are invoked only after
both quiesce calls completed with no matching process observed in their last
enumeration; and if a matching process persists through the retry budget of
either call, the run exits with code 1 with neither mutation performed. -/
theorem c2_quiesce_before_mutation (env : Env) :
    ((mainModel env).regInvoked = true ∨ (mainModel env).cfgInvoked = true →
      ∃ t1 t2,
        close_cursor_process env.procTable "Cursor" 0 = some t1 ∧
        close_cursor_process env.procTable "cursor" t1 = some t2 ∧
        matchProcs "Cursor" (env.procTable (t1 - 1)) = [] ∧
        matchProcs "cursor" (env.procTable (t2 - 1)) = []) ∧
    (close_cursor_process env.procTable "Cursor" 0 = none →
      (mainModel env).exitCode = 1 ∧ (mainModel env).regInvoked = false ∧
      (mainModel env).cfgInvoked = false) ∧
    (∀ t1, close_cursor_process env.procTable "Cursor" 0 = some t1 →
      close_cursor_process env.procTable "cursor" t1 = none →
      (mainModel env).exitCode = 1 ∧ (mainModel env).regInvoked = false ∧
      (mainModel env).cfgInvoked = false) := by
  by_cases ha : env.isAdmin
  · cases hc1 : close_cursor_process env.procTable "Cursor" 0 with
    | none =>
      refine ⟨?_, ?_, ?_⟩
      · intro h
        simp [mainModel, ha, hc1, exitRec] at h
      · intro _
        simp [mainModel, ha, hc1, exitRec]
      · intro t1 h1 _
        exact Option.noConfusion h1
    | some t1 =>
      cases hc2 : close_cursor_process env.procTable "cursor" t1 with
      | none =>
        refine ⟨?_, ?_, ?_⟩
        · intro h
          simp [mainModel, ha, hc1, hc2, exitRec] at h
        · intro h
          exact Option.noConfusion h
        · intro t1' h1 h2
          obtain rfl : t1 = t1' := Option.some.inj h1
          simp [mainModel, ha, hc1, hc2, exitRec]
      | some t2 =>
        refine ⟨?_, ?_, ?_⟩
        · intro _
          exact ⟨t1, t2, rfl, hc2,
            (close_cursor_process_some env.procTable "Cursor" 0 t1 hc1).2,
            (close_cursor_process_some env.procTable "cursor" t1 t2 hc2).2⟩
        · intro h
          exact Option.noConfusion h
        · intro t1' h1 h2
          obtain rfl : t1 = t1' := Option.some.inj h1
          rw [hc2] at h2
          exact Option.noConfusion h2
  · refine ⟨?_, ?_, ?_⟩
    · intro h
      simp [mainModel, ha, exitRec] at h
    · intro _
      simp [mainModel, ha, exitRec]
    · intro t1 _ _
      simp [mainModel, ha, exitRec]

/-- A run in which the target process is observed running at every
enumeration, so quiescing exhausts its budget. -/
def envBusy : Env :=
  { isAdmin := true
    procTable := fun _ => ["Cursor"]
    backupDirExists := true
    mkdirOk := true
    copyOk := true
    isWin32 := false
    regEnv := regEnvA
    fileEnv := fenvOk
    disk := some "old"
    hexChoices := fun _ => 0
    machChoices := fun _ => 0
    devBytes := []
    sqmBytes := [] }

theorem c2_witness :
    (∃ t1 t2,
      close_cursor_process envC1.procTable "Cursor" 0 = some t1 ∧
      close_cursor_process envC1.procTable "cursor" t1 = some t2 ∧
      matchProcs "Cursor" (envC1.procTable (t1 - 1)) = [] ∧
      matchProcs "cursor" (envC1.procTable (t2 - 1)) = []) ∧
    ((mainModel envBusy).exitCode = 1 ∧ (mainModel envBusy).regInvoked = false ∧
      (mainModel envBusy).cfgInvoked = false) :=
  ⟨(c2_quiesce_before_mutation envC1).1 (Or.inr rfl),
   (c2_quiesce_before_mutation envBusy).2.1 (by decide)⟩

/-- A registry environment in which reading the current value raises (so
`original_guid` stays empty), the backup export succeeds, and the write
fails. -/
def regEnvNoOrig : RegEnv :=
  ⟨true, true, none, true, true, "G", false, false, "", true⟩

/-- C9 is false on the code: with the backup `.reg` file produced but the
earlier read of the current value failed (`original_guid` empty), a write
failure does not trigger the restore-by-import — line 242 also requires
`original_guid` to be non-empty — refuting the claimed "if and only if the
backup file was produced". -/
theorem c9_counterexample :
    (update_machine_guid true regEnvNoOrig).backupProduced = true ∧
    (update_machine_guid true regEnvNoOrig).wroteValue = false ∧
    (update_machine_guid true regEnvNoOrig).restoreAttempted = false ∧
    (update_machine_guid true regEnvNoOrig).ret = false :=
  ⟨rfl, rfl, rfl, rfl⟩

/-- C9 (amended): on Windows, when writing the new registry value fails,
`update_machine_guid` attempts the restore-by-import if and only if the
backup `.reg` file was produced earlier AND the previously read original
value is non-empty; the manual-recovery message is logged exactly when the
attempted restore also fails; and the function returns `false`. -/
theorem c9_restore_iff_backup_and_original (env : RegEnv)
    (hreg : env.winregAvailable = true) (hopen : env.openOk = true)
    (hwrite : env.writeOk = false) :
    (update_machine_guid true env).ret = false ∧
    ((update_machine_guid true env).restoreAttempted = true ↔
      (env.queryResult.getD "" ≠ "" ∧ env.exportOk = true)) ∧
    ((update_machine_guid true env).manualRecoveryLogged = true ↔
      ((update_machine_guid true env).restoreAttempted = true ∧
        env.restoreOk = false)) := by
  simp [update_machine_guid, hreg, hopen, hwrite, Bool.and_eq_true, bne_iff_ne,
    Bool.not_eq_true', and_assoc]

/-- A registry environment with a readable original value, a produced
backup, a failing write and a failing restore. -/
def regEnvC9w : RegEnv :=
  ⟨true, true, some "old", true, true, "G", false, false, "", false⟩

theorem c9_witness :
    (update_machine_guid true regEnvC9w).ret = false ∧
    ((update_machine_guid true regEnvC9w).restoreAttempted = true ↔
      (regEnvC9w.queryResult.getD "" ≠ "" ∧ regEnvC9w.exportOk = true)) ∧
    ((update_machine_guid true regEnvC9w).manualRecoveryLogged = true ↔
      ((update_machine_guid true regEnvC9w).restoreAttempted = true ∧
        regEnvC9w.restoreOk = false)) :=
  c9_restore_iff_backup_and_original regEnvC9w rfl rfl rfl

/-- A Windows run whose registry step succeeds end to end. -/
def envC10a : Env :=
  { isAdmin := true
    procTable := fun _ => []
    backupDirExists := true
    mkdirOk := true
    copyOk := true
    isWin32 := true
    regEnv := regEnvA
    fileEnv := fenvOk
    disk := some "old"
    hexChoices := fun _ => 0
    machChoices := fun _ => 0
    devBytes := []
    sqmBytes := [] }

/-- The same run except that the registry verification read disagrees, so
`update_machine_guid` returns `false`. -/
def envC10b : Env :=
  { isAdmin := true
    procTable := fun _ => []
    backupDirExists := true
    mkdirOk := true
    copyOk := true
    isWin32 := true
    regEnv := regEnvB
    fileEnv := fenvOk
    disk := some "old"
    hexChoices := fun _ => 0
    machChoices := fun _ => 0
    devBytes := []
    sqmBytes := [] }

/-- C10 is false on the code: two runs identical except for the value
returned by `update_machine_guid` (here `true` vs `false`) produce the same
exit code, the same success report and the same displayed identifiers —
`machine_guid_updated` is never consulted after its assignment at lines
404-406. -/
theorem c10_counterexample :
    (update_machine_guid true regEnvA).ret = true ∧
    (update_machine_guid true regEnvB).ret = false ∧
    (mainModel envC10a).machineGuidUpdated = true ∧
    (mainModel envC10b).machineGuidUpdated = false ∧
    (mainModel envC10a).exitCode = (mainModel envC10b).exitCode ∧
    (mainModel envC10a).configReported = (mainModel envC10b).configReported ∧
    (mainModel envC10a).reportedIds = (mainModel envC10b).reportedIds ∧
    (mainModel envC10a).diskAfter = (mainModel envC10b).diskAfter :=
  ⟨rfl, rfl, rfl, rfl, rfl, rfl, rfl, rfl⟩

/-- Replace only the registry collaborators of a run. -/
def Env.setReg (e : Env) (r : RegEnv) : Env :=
  ⟨e.isAdmin, e.procTable, e.backupDirExists, e.mkdirOk, e.copyOk, e.isWin32, r,
   e.fileEnv, e.disk, e.hexChoices, e.machChoices, e.devBytes, e.sqmBytes⟩

/-- C10 (amended): when the config update succeeds the terminal report does
NOT distinguish the registry outcome — every reported component of the run
(exit code, success report, displayed identifiers, resulting file content)
is identical for two runs differing only in the registry collaborators; the
registry outcome is reported only by messages printed inside
`update_machine_guid` itself. -/
theorem c10_report_independent_of_registry (env : Env) (r1 r2 : RegEnv) :
    (mainModel (env.setReg r1)).exitCode = (mainModel (env.setReg r2)).exitCode ∧
    (mainModel (env.setReg r1)).configReported = (mainModel (env.setReg r2)).configReported ∧
    (mainModel (env.setReg r1)).reportedIds = (mainModel (env.setReg r2)).reportedIds ∧
    (mainModel (env.setReg r1)).cfgInvoked = (mainModel (env.setReg r2)).cfgInvoked ∧
    (mainModel (env.setReg r1)).regInvoked = (mainModel (env.setReg r2)).regInvoked ∧
    (mainModel (env.setReg r1)).diskAfter = (mainModel (env.setReg r2)).diskAfter := by
  by_cases ha : env.isAdmin
  · cases hc1 : close_cursor_process env.procTable "Cursor" 0 with
    | none => simp [mainModel, Env.setReg, ha, hc1, exitRec]
    | some t1 =>
      cases hc2 : close_cursor_process env.procTable "cursor" t1 with
      | none => simp [mainModel, Env.setReg, ha, hc1, hc2, exitRec]
      | some t2 =>
        by_cases hd : (!env.backupDirExists && !env.mkdirOk) = true
        · simp [mainModel, mainTail, Env.setReg, ha, hc1, hc2, hd, exitRec]
        · simp [mainModel, mainTail, Env.setReg, ha, hc1, hc2, hd, exitRec]
  · simp [mainModel, Env.setReg, ha, exitRec]

theorem pychoice_mem (s : String) (n : Nat) (h : s.toList ≠ []) :
    pychoice s n ∈ s.toList := by
  have hlen : 0 < s.toList.length := List.length_pos.mpr h
  have hm : n % s.toList.length < s.toList.length := Nat.mod_lt _ hlen
  rw [pychoice, List.getD_eq_getElem _ _ hm]
  exact List.getElem_mem hm

theorem hexDigitChar_mem (n : Nat) : hexDigitChar n ∈ "0123456789abcdef".toList := by
  have hm : n % 16 < ("0123456789abcdef".toList).length := by
    have : ("0123456789abcdef".toList).length = 16 := by decide
    rw [this]
    exact Nat.mod_lt _ (by norm_num)
  rw [hexDigitChar, List.getD_eq_getElem _ _ hm]
  exact List.getElem_mem hm

/-- C6 is false on the code: the fixed prefix `b"auth0|user_"` is 11 bytes,
not 12, and the 32 random characters are drawn from the 36-character
alphabet of lowercase letters and digits, so a character such as `z` that is
not a hex digit can occur. -/
theorem c6_counterexample :
    authPrefixBytes.length = 11 ∧
    (machine_id fun _ => 25).toList.getD 22 ' ' = 'z' ∧
    ¬ ('z' ∈ "0123456789abcdef".toList) :=
  ⟨rfl, rfl, by decide⟩

/-- C6 (amended): every generated telemetry machineId is the lowercase-hex
encoding (22 hex characters) of the fixed 11-byte ASCII prefix
`auth0|user_`, followed by 32 characters drawn uniformly and independently
from the 36-character alphabet of lowercase ASCII letters and digits. -/
theorem c6_machine_id_format (c : Nat → Nat) :
    (machine_id c).length = 54 ∧
    authPrefixBytes.length = 11 ∧
    prefix_hex = "61757468307c757365725f" ∧
    (∀ i, i < 22 → (machine_id c).toList.getD i ' ' = prefix_hex.toList.getD i ' ') ∧
    (∀ i, i < 32 →
      (machine_id c).toList.getD (22 + i) ' ' = pychoice lowercaseAlphanum (c i)) ∧
    (∀ i, i < 32 →
      (machine_id c).toList.getD (22 + i) ' ' ∈ lowercaseAlphanum.toList) := by
  have htl : (machine_id c).toList =
      prefix_hex.toList ++ (List.range 32).map fun i => pychoice lowercaseAlphanum (c i) :=
    rfl
  have hplen : prefix_hex.toList.length = 22 := by decide
  refine ⟨?_, rfl, by decide, ?_, ?_, ?_⟩
  · show (machine_id c).toList.length = 54
    rw [htl, List.length_append, hplen]
    simp
  · intro i hi
    rw [htl, List.getD_append _ _ _ _ (by rw [hplen]; exact hi)]
  · intro i hi
    rw [htl, List.getD_append_right _ _ _ _ (by rw [hplen]; exact Nat.le_add_right 22 i)]
    rw [hplen, Nat.add_sub_cancel_left]
    have hm : i < ((List.range 32).map fun j => pychoice lowercaseAlphanum (c j)).length := by
      simpa using hi
    rw [List.getD_eq_getElem _ _ hm]
    simp
  · intro i hi
    have h5 : (machine_id c).toList.getD (22 + i) ' ' = pychoice lowercaseAlphanum (c i) := by
      rw [htl, List.getD_append_right _ _ _ _ (by rw [hplen]; exact Nat.le_add_right 22 i)]
      rw [hplen, Nat.add_sub_cancel_left]
      have hm : i < ((List.range 32).map fun j => pychoice lowercaseAlphanum (c j)).length := by
        simpa using hi
      rw [List.getD_eq_getElem _ _ hm]
      simp
    rw [h5]
    exact pychoice_mem lowercaseAlphanum (c i) (by decide)

theorem c6_witness :
    (machine_id fun _ => 25).length = 54 ∧
    (machine_id fun _ => 25).toList.getD 22 ' ' ∈ lowercaseAlphanum.toList :=
  ⟨(c6_machine_id_format fun _ => 25).1,
   (c6_machine_id_format fun _ => 25).2.2.2.2.2 0 (by decide)⟩

theorem flatten_byteHexChars_length (l : List Nat) :
    ((l.map byteHexChars).flatten).length = 2 * l.length := by
  induction l with
  | nil => simp
  | cons b t ih =>
    simp [byteHexChars, ih]
    omega

theorem mem_flatten_byteHexChars (l : List Nat) (ch : Char)
    (h : ch ∈ (l.map byteHexChars).flatten) : ch ∈ "0123456789abcdef".toList := by
  rw [List.mem_flatten] at h
  obtain ⟨l', hl', hch⟩ := h
  rw [List.mem_map] at hl'
  obtain ⟨b, _, rfl⟩ := hl'
  simp only [byteHexChars, List.mem_cons, List.not_mem_nil, or_false] at hch
  rcases hch with rfl | rfl
  · exact hexDigitChar_mem _
  · exact hexDigitChar_mem _

theorem uuid4_hex_toList_length (bs : List Nat) :
    (((uuid4_bytes bs).map byteHexChars).flatten).length = 32 := by
  rw [flatten_byteHexChars_length]
  simp [uuid4_bytes]

/-- C7 is false on the code: `uuid.uuid4().hex` has no separators, so the
generated sqmId has length 34 (32 hex characters plus the braces), not 38. -/
theorem c7_counterexample :
    (sqm_id (List.replicate 16 0)).length = 34 ∧
    ¬ (sqm_id (List.replicate 16 0)).length = 38 := by
  refine ⟨by decide, by decide⟩

/-- C7 (amended): every generated sqmId has length exactly 34, begins with
an opening brace and ends with a closing brace, and its interior 32
characters are uppercase hex digits. -/
theorem c7_sqm_id_format (bs : List Nat) :
    (sqm_id bs).length = 34 ∧
    (sqm_id bs).toList.getD 0 ' ' = '\x7b' ∧
    (sqm_id bs).toList.getD 33 ' ' = '\x7d' ∧
    (∀ i, 1 ≤ i → i ≤ 32 →
      (sqm_id bs).toList.getD i ' ' ∈ "0123456789ABCDEF".toList) := by
  have htl : (sqm_id bs).toList =
      ('\x7b' :: (((uuid4_bytes bs).map byteHexChars).flatten).map Char.toUpper)
        ++ ['\x7d'] := rfl
  have hlen32 : ((((uuid4_bytes bs).map byteHexChars).flatten).map Char.toUpper).length = 32 := by
    rw [List.length_map]
    exact uuid4_hex_toList_length bs
  have hlen33 : ('\x7b' :: (((uuid4_bytes bs).map byteHexChars).flatten).map Char.toUpper).length = 33 := by
    rw [List.length_cons, hlen32]
  refine ⟨?_, ?_, ?_, ?_⟩
  · show (sqm_id bs).toList.length = 34
    rw [htl, List.length_append, hlen33]
    rfl
  · rw [htl, List.getD_append _ _ _ _ (by rw [hlen33]; norm_num)]
    rfl
  · rw [htl, List.getD_append_right _ _ _ _ (by rw [hlen33])]
    rw [hlen33]
    rfl
  · intro i h1 h32
    rw [htl, List.getD_append _ _ _ _ (by rw [hlen33]; omega)]
    have hi1 : i - 1 < ((((uuid4_bytes bs).map byteHexChars).flatten).map Char.toUpper).length := by
      rw [hlen32]; omega
    have hgd : ('\x7b' :: (((uuid4_bytes bs).map byteHexChars).flatten).map Char.toUpper).getD i ' '
        = ((((uuid4_bytes bs).map byteHexChars).flatten).map Char.toUpper).getD (i - 1) ' ' := by
      obtain ⟨j, rfl⟩ : ∃ j, i = j + 1 := ⟨i - 1, by omega⟩
      simp
    rw [hgd, List.getD_eq_getElem _ _ hi1]
    have hmem : ((((uuid4_bytes bs).map byteHexChars).flatten).map Char.toUpper)[i - 1] ∈
        (((uuid4_bytes bs).map byteHexChars).flatten).map Char.toUpper :=
      List.getElem_mem hi1
    rw [List.mem_map] at hmem
    obtain ⟨ch, hch, heq⟩ := hmem
    rw [← heq]
    have hhex : ch ∈ "0123456789abcdef".toList := mem_flatten_byteHexChars _ _ hch
    have hall : ∀ x ∈ "0123456789abcdef".toList, x.toUpper ∈ "0123456789ABCDEF".toList := by
      decide
    exact hall ch hhex

theorem c7_witness :
    (sqm_id (List.replicate 16 7)).length = 34 ∧
    (sqm_id (List.replicate 16 7)).toList.getD 1 ' ' ∈ "0123456789ABCDEF".toList :=
  ⟨(c7_sqm_id_format (List.replicate 16 7)).1,
   (c7_sqm_id_format (List.replicate 16 7)).2.2.2 1 (by decide) (by decide)⟩

theorem nsmid_toList (c : Nat → Nat) :
    (new_standard_machine_id c).toList =
      [
       pychoice "0123456789abcdef" (c 0), pychoice "0123456789abcdef" (c 1),
       pychoice "0123456789abcdef" (c 2), pychoice "0123456789abcdef" (c 3),
       pychoice "0123456789abcdef" (c 4), pychoice "0123456789abcdef" (c 5),
       pychoice "0123456789abcdef" (c 6), pychoice "0123456789abcdef" (c 7),
       '-', pychoice "0123456789abcdef" (c 8),
       pychoice "0123456789abcdef" (c 9), pychoice "0123456789abcdef" (c 10),
       pychoice "0123456789abcdef" (c 11), '-',
       '4', pychoice "0123456789abcdef" (c 12),
       pychoice "0123456789abcdef" (c 13), pychoice "0123456789abcdef" (c 14),
       '-', pychoice "89ab" (c 15),
       pychoice "0123456789abcdef" (c 16), pychoice "0123456789abcdef" (c 17),
       pychoice "0123456789abcdef" (c 18), '-',
       pychoice "0123456789abcdef" (c 19), pychoice "0123456789abcdef" (c 20),
       pychoice "0123456789abcdef" (c 21), pychoice "0123456789abcdef" (c 22),
       pychoice "0123456789abcdef" (c 23), pychoice "0123456789abcdef" (c 24),
       pychoice "0123456789abcdef" (c 25), pychoice "0123456789abcdef" (c 26),
       pychoice "0123456789abcdef" (c 27), pychoice "0123456789abcdef" (c 28),
       pychoice "0123456789abcdef" (c 29), pychoice "0123456789abcdef" (c 30)] := rfl

theorem pychoice_hex_ne_dash (n : Nat) : pychoice "0123456789abcdef" n ≠ '-' := by
  intro h
  have hm := pychoice_mem "0123456789abcdef" n (by decide)
  rw [h] at hm
  exact absurd hm (by decide)

theorem pychoice_var_ne_dash (n : Nat) : pychoice "89ab" n ≠ '-' := by
  intro h
  have hm := pychoice_mem "89ab" n (by decide)
  rw [h] at hm
  exact absurd hm (by decide)

/-- C8: every string returned by `new_standard_machine_id` has length 36,
has hyphens exactly at positions 8, 13, 18 and 23, has the literal `4` at
position 14, has one of `8`, `9`, `a`, `b` at position 19, and at every
other position carries one fresh uniform draw from the lowercase hex
alphabet. -/
theorem c8_standard_machine_id_format (c : Nat → Nat) :
    (new_standard_machine_id c).length = 36 ∧
    (∀ i, i < 36 →
      ((new_standard_machine_id c).toList.getD i ' ' = '-' ↔ i ∈ [8, 13, 18, 23])) ∧
    (new_standard_machine_id c).toList.getD 14 ' ' = '4' ∧
    (new_standard_machine_id c).toList.getD 19 ' ' ∈ "89ab".toList ∧
    (∀ i, i < 36 → i ∉ [8, 13, 18, 23] → i ≠ 14 → i ≠ 19 →
      (new_standard_machine_id c).toList.getD i ' ' ∈ "0123456789abcdef".toList ∧
      ∃ k, (new_standard_machine_id c).toList.getD i ' ' =
        pychoice "0123456789abcdef" (c k)) := by
  refine ⟨?_, ?_, ?_, ?_, ?_⟩
  · show (new_standard_machine_id c).toList.length = 36
    rw [nsmid_toList]
    rfl
  · intro i hi
    rw [nsmid_toList]
    interval_cases i <;> simp [pychoice_hex_ne_dash, pychoice_var_ne_dash]
  · rw [nsmid_toList]
    rfl
  · rw [nsmid_toList]
    exact pychoice_mem "89ab" (c 15) (by decide)
  · intro i hi h8 h14 h19
    rw [nsmid_toList]
    interval_cases i <;>
      first
        | exact absurd (by decide) h8
        | exact absurd rfl h14
        | exact absurd rfl h19
        | exact ⟨pychoice_mem _ _ (by decide), _, rfl⟩

theorem c8_witness :
    (new_standard_machine_id fun _ => 0).length = 36 ∧
    ((new_standard_machine_id fun _ => 0).toList.getD 8 ' ' = '-' ↔
      (8 : Nat) ∈ [8, 13, 18, 23]) ∧
    (new_standard_machine_id fun _ => 0).toList.getD 0 ' ' ∈ "0123456789abcdef".toList :=
  ⟨(c8_standard_machine_id_format fun _ => 0).1,
   (c8_standard_machine_id_format fun _ => 0).2.1 8 (by decide),
   ((c8_standard_machine_id_format fun _ => 0).2.2.2.2 0 (by decide) (by decide)
     (by decide) (by decide)).1⟩
